import Mathlib

/-!
Shallow embedding of the BirdTrail subscription notification engine.

Sources:
- `server/src/notifier.js` (`startNotifier` / `execute`): the per-subscription
  poll cycle — fetch, dedup filter, throttle gate, dispatch, cursor commit.
- `server/src/db.js` (`updateSubscriptionLastObservation`, `createSubscription`,
  `deleteSubscription`): the subscription store.
- `server/src/ebird.js` (`fetchRecentObservations`): the backend feed client.

Modelling conventions:
- JavaScript timestamps (`Date.parse` of an ISO string) become `Option Int`
  in milliseconds: `none` stands for `NaN` (an unparseable date string),
  `some t` for a finite parse result.
- A nullable DB column becomes `Option _`; `lastNotifiedAt` is stored as a
  string and parsed with `Date.parse` wherever the notifier reads it, so it
  is modelled as `Option (Option Int)`: `none` = SQL NULL (JS falsy),
  `some none` = present but unparseable, `some (some t)` = parses to `t`.
- Network effects (feed fetch, Twilio send, DB write) are injected as data:
  an `Except` result for the fetch and success booleans for dispatch/store,
  so an exception becomes the caught-and-logged `failed` outcome.
- The JS float division `(earliest - last) / 60000 < minutes` is modelled by
  the exact integer inequality `earliest - last < minutes * 60000`, which is
  equivalent over the rationals since `60000 > 0` and both sides are exact.
-/

namespace BirdTrail

/-- One eBird observation as consumed by the notifier: `subId` (submission
id), `obsDt` (the raw observed-at string, used verbatim in the SMS body),
`obsTime` (= `Date.parse obsDt`), `locName`. -/
structure Observation where
  subId : String
  obsDt : String
  obsTime : Option Int
  locName : String
deriving Repr, DecidableEq

/-- One row of the `subscriptions` table (db.js schema), with the cursor
columns `lastObservationId` / `lastNotifiedAt` nullable. -/
structure Subscription where
  id : Nat
  phone : String
  speciesCode : String
  speciesCommonName : String
  locationLabel : String
  latitude : Int
  longitude : Int
  radiusMiles : Int
  lookBackDays : Int
  createdAt : String
  lastObservationId : Option String
  lastNotifiedAt : Option (Option Int)
deriving Repr, DecidableEq

/-- The configuration captured by the `startNotifier` closure. -/
structure NotifierEnv where
  twilioAccountSid : String
  twilioAuthToken : String
  twilioFromNumber : String
  minimumNotificationMinutes : Int
deriving Repr, DecidableEq

/-- `twilioClient` is non-null iff both sid and auth token are truthy. -/
def hasTwilioClient (env : NotifierEnv) : Bool :=
  env.twilioAccountSid != "" && env.twilioAuthToken != ""

/-- Guard of the dispatch block: `twilioClient && twilioFromNumber`. -/
def smsEnabled (env : NotifierEnv) : Bool :=
  hasTwilioClient env && env.twilioFromNumber != ""

/-- The early-skip check: `subscription.lastObservationId &&
subscription.lastObservationId === latest.subId` where `latest` is
`observations[0]`. -/
def skipsLatest (sub : Subscription) (latest : Observation) : Bool :=
  match sub.lastObservationId with
  | some id => id == latest.subId
  | none => false

/-- The callback of `observations.filter(...)` in `execute`: keep the
observation unless (a) its `subId` equals a set `lastObservationId`, or
(b) `lastNotifiedAt` is set and both `Date.parse(observation.obsDt)` and
`Date.parse(subscription.lastNotifiedAt)` are finite with the former `<=`
the latter (NaN comparisons are false in JS, hence the catch-all keeps). -/
def keepObservation (sub : Subscription) (observation : Observation) : Bool :=
  if (match sub.lastObservationId with
      | some id => observation.subId == id
      | none => false) then
    false
  else
    match sub.lastNotifiedAt, observation.obsTime with
    | some (some lastTime), some obsTime => decide (lastTime < obsTime)
    | _, _ => true

/-- `const newSightings = observations.filter(...)`. -/
def newSightings (sub : Subscription) (observations : List Observation) :
    List Observation :=
  observations.filter (keepObservation sub)

/-- The throttle block of `execute`: returns `false` exactly when the code
hits `continue`. Guarded by `lastNotifiedAt && minimumNotificationMinutes >
0`, then by `Number.isFinite(Date.parse(lastNotifiedAt))`; the comparison
`(earliest - last) / 60000 < minutes` is skipped when `earliest` is NaN. -/
def shouldNotify (env : NotifierEnv) (sub : Subscription)
    (newList : List Observation) : Bool :=
  match sub.lastNotifiedAt with
  | none => true
  | some parsedLast =>
    if env.minimumNotificationMinutes > 0 then
      match parsedLast with
      | none => true
      | some lastNotified =>
        match newList with
        | [] => true
        | first :: _ =>
          match first.obsTime with
          | none => true
          | some earliestObservation =>
            decide (env.minimumNotificationMinutes * 60000 ≤
              earliestObservation - lastNotified)
    else true

/-- The SMS body built in the dispatch block: five parts, the extras line
present only when `extras > 0`, empty parts removed by `.filter(Boolean)`,
joined with single spaces. -/
def buildMessage (sub : Subscription) (primary : Observation)
    (extras : Nat) : String :=
  String.intercalate " "
    (([ "BirdTrail alert: " ++ sub.speciesCommonName,
        "Latest at " ++ primary.locName ++ " (" ++ primary.obsDt ++ ").",
        if extras > 0 then
          toString extras ++ " more sightings nearby in the last check."
        else "",
        "Search radius " ++ toString sub.radiusMiles ++ "mi around " ++
          sub.locationLabel ++ ".",
        "Reply STOP to unsubscribe." ] :
      List String).filter (fun part => part != ""))

/-- Injected results of the awaited effects of one subscription's pipeline:
the feed fetch outcome, whether `twilioClient.messages.create` resolves, and
whether `updateSubscriptionLastObservation` runs without throwing. -/
structure SubEffects where
  fetch : Except String (List Observation)
  dispatchOk : Bool
  storeOk : Bool
deriving Repr

/-- Observable outcome of one subscription in one cycle: the SMS body handed
successfully to the transport (if any), the cursor write request `(subId,
now)` reaching the store (if any), and whether the `catch` block ran. -/
structure CycleOutcome where
  sent : Option String
  cursorWrite : Option (String × Int)
  failed : Bool
deriving Repr, DecidableEq

/-- The body of the `for (const subscription of subscriptions)` loop of
`execute`, with its `try`/`catch`: every thrown effect is caught at the
subscription boundary and becomes `failed := true`. `now` is the wall-clock
time stamped by `new Date().toISOString()` inside the cursor update. -/
def processSubscription (env : NotifierEnv) (sub : Subscription)
    (eff : SubEffects) (now : Int) : CycleOutcome :=
  match eff.fetch with
  | Except.error _ => ⟨none, none, true⟩
  | Except.ok observations =>
    match observations with
    | [] => ⟨none, none, false⟩
    | latest :: _ =>
      if skipsLatest sub latest then ⟨none, none, false⟩
      else
        match newSightings sub observations with
        | [] => ⟨none, none, false⟩
        | primary :: rest =>
          if shouldNotify env sub (primary :: rest) then
            if smsEnabled env then
              if eff.dispatchOk then
                if eff.storeOk then
                  ⟨some (buildMessage sub primary rest.length),
                    some (primary.subId, now), false⟩
                else
                  ⟨some (buildMessage sub primary rest.length), none, true⟩
              else ⟨none, none, true⟩
            else
              if eff.storeOk then ⟨none, some (primary.subId, now), false⟩
              else ⟨none, none, true⟩
          else ⟨none, none, false⟩

/-- One full `execute` cycle: the loop over `listSubscriptions()`, each
iteration isolated by its own `try`/`catch`; subscription `i` consumes the
`i`-th injected effect results. -/
def executeCycle (env : NotifierEnv) (subs : List Subscription)
    (effs : List SubEffects) (now : Int) : List CycleOutcome :=
  List.zipWith (fun sub eff => processSubscription env sub eff now) subs effs

/-- db.js `updateSubscriptionLastObservation`: one SQL UPDATE setting
`lastObservationId` and `lastNotifiedAt` together on the row matching `id`
(zero rows affected when the id is absent). `notifiedAt` is the parse of the
`new Date().toISOString()` stamped inside the function. -/
def updateSubscriptionLastObservation (db : List Subscription) (id : Nat)
    (observationId : String) (notifiedAt : Int) : List Subscription :=
  db.map (fun s =>
    if s.id = id then
      { s with lastObservationId := some observationId,
               lastNotifiedAt := some (some notifiedAt) }
    else s)

/-- The three mutating operations db.js exposes on the subscriptions table. -/
inductive StoreOp where
  | create (input : Subscription)
  | delete (id : Nat)
  | updateCursor (id : Nat) (observationId : String) (notifiedAt : Int)
deriving Repr, DecidableEq

/-- Applying one db.js mutation: `createSubscription` inserts with both
cursor columns forced to NULL, `deleteSubscription` removes the matching
row, `updateSubscriptionLastObservation` is the cursor write. -/
def applyStoreOp (db : List Subscription) : StoreOp → List Subscription
  | StoreOp.create input =>
      db ++ [{ input with lastObservationId := none, lastNotifiedAt := none }]
  | StoreOp.delete id => db.filter (fun s => s.id != id)
  | StoreOp.updateCursor id observationId notifiedAt =>
      updateSubscriptionLastObservation db id observationId notifiedAt

/-- Applying a cycle outcome's cursor write (if any) for subscription `id`
to the store. -/
def applyOutcome (db : List Subscription) (id : Nat)
    (outcome : CycleOutcome) : List Subscription :=
  match outcome.cursorWrite with
  | some (observationId, notifiedAt) =>
      updateSubscriptionLastObservation db id observationId notifiedAt
  | none => db

/-- ebird.js: everything the backend `fetchRecentObservations` does with the
HTTP response it received. -/
structure FeedResponse where
  ok : Bool
  status : Nat
  statusText : String
  body : String
  json : List Observation
deriving Repr, DecidableEq

/-- ebird.js `fetchRecentObservations`, as a function of the response:
throws on a missing API key, throws on any non-ok response (status quoted in
the message), otherwise returns the parsed JSON body. -/
def fetchRecentObservations (apiKey : String) (response : FeedResponse) :
    Except String (List Observation) :=
  if apiKey = "" then Except.error "Missing eBird API key for backend"
  else if response.ok then Except.ok response.json
  else
    Except.error ("eBird API returned " ++ toString response.status ++ " " ++
      response.statusText ++ ": " ++ response.body)

/-- Modelled from the spec (§4.3 DedupFilter wording), for refinement
comparison with `keepObservation`: keep an observation unless its submission
id equals a set `cursor.lastObservationId`, or `cursor.lastNotifiedAt` is
set and the observed-at time is less than or equal to it; with
`lastObservationId` unset no id filtering occurs. Stated over parsed
timestamps. -/
def specKeep (sub : Subscription) (o : Observation) : Bool :=
  (match sub.lastObservationId with
   | some id => !(o.subId == id)
   | none => true) &&
  (match sub.lastNotifiedAt, o.obsTime with
   | some (some lastTime), some obsTime => decide (lastTime < obsTime)
   | _, _ => true)

/-- Modelled from the spec (§4.4 wording): the earliest observed-at time
among the new sightings. -/
def earliestObservedTime (batch : List Observation) : Option Int :=
  (batch.filterMap Observation.obsTime).min?

/-- Modelled from the spec (§4.4 ThrottleGate wording), for refinement
comparison with `shouldNotify`: notify iff `lastNotifiedAt` is unset, or
the gap in minutes from it to the earliest observed-at time among the new
sightings is at least `minIntervalMinutes`. -/
def specShouldNotify (minIntervalMinutes : Int) (lastNotifiedAt : Option Int)
    (batch : List Observation) : Bool :=
  match lastNotifiedAt with
  | none => true
  | some lastTime =>
    match earliestObservedTime batch with
    | some earliest =>
        decide (minIntervalMinutes * 60000 ≤ earliest - lastTime)
    | none => true

/-- Side condition used by the idempotence theorem: the observation's
observed-at string parses and the result is at most `now`. -/
def timeAtMost (now : Int) (o : Observation) : Bool :=
  match o.obsTime with
  | some t => decide (t ≤ now)
  | none => false

/-! Concrete sample data used by witnesses and counterexamples. -/

/-- A sighting observed before the sample cursor's `lastNotifiedAt` of 0. -/
def obsPastX : Observation := ⟨"X", "2023-12-31T23:50:00Z", some (-600000), "Marsh"⟩

/-- A sighting whose observed-at time lies after the sample commit time. -/
def obsFutureA : Observation := ⟨"A", "2024-01-01T02:46:40Z", some 10000000, "Ridge"⟩

/-- A second sighting observed after the sample commit time. -/
def obsFutureB : Observation := ⟨"B", "2024-01-02T03:46:40Z", some 100000000, "Shore"⟩

/-- A sighting observed 120 minutes after the sample `lastNotifiedAt`. -/
def obsRecent : Observation := ⟨"P", "2024-01-01T02:00:00Z", some 7200000, "Pond"⟩

/-- A sighting observed 30 minutes after the sample `lastNotifiedAt`. -/
def obsOlder : Observation := ⟨"Q", "2024-01-01T00:30:00Z", some 1800000, "Field"⟩

/-- A sighting observed 5 minutes before the sample `lastNotifiedAt`. -/
def obsBackdated : Observation := ⟨"R", "2023-12-31T23:55:00Z", some (-300000), "Trail"⟩

/-- A subscription whose cursor points at an aged-out submission id and a
`lastNotifiedAt` parsing to 0. -/
def subSeattle : Subscription :=
  ⟨1, "+12025550100", "amecro", "American Crow", "Seattle", 47, -122, 25, 3,
    "2024-01-01T00:00:00Z", some "OLD", some (some 0)⟩

/-- The sample subscription with an unset `lastObservationId`. -/
def subThrottle : Subscription :=
  { subSeattle with lastObservationId := none }

/-- Full Twilio configuration, 60-minute throttle. -/
def envFull : NotifierEnv := ⟨"sid", "token", "+12025550123", 60⟩

/-- Missing Twilio credentials, 60-minute throttle. -/
def envNoSms : NotifierEnv := ⟨"", "", "", 60⟩

/-- Full Twilio configuration with the throttle interval set to 0. -/
def envZeroMin : NotifierEnv := { envFull with minimumNotificationMinutes := 0 }

/-- A snapshot mixing one stale and two future-dated sightings, with all
effects succeeding. -/
def effSnapshot : SubEffects :=
  ⟨Except.ok [obsPastX, obsFutureA, obsFutureB], true, true⟩

/-- An HTTP 404 response from the feed. -/
def notFoundResponse : FeedResponse := ⟨false, 404, "Not Found", "", []⟩

/-- A snapshot of two past sightings with all effects succeeding. -/
def effPastSnapshot : SubEffects := ⟨Except.ok [obsRecent, obsOlder], true, true⟩

/-- The same snapshot with the Twilio send rejecting. -/
def effDispatchFail : SubEffects := ⟨Except.ok [obsRecent, obsOlder], false, true⟩

/-- A feed fetch that threw. -/
def effFetchFail : SubEffects :=
  ⟨Except.error "eBird API returned 500 Internal Server Error: upstream", true, true⟩

/-- The sample subscription with a `lastNotifiedAt` that does not parse. -/
def subBadDate : Subscription := { subSeattle with lastNotifiedAt := some none }

/-- The sample subscription after the write of `StoreOp.updateCursor 1 "A" 5`. -/
def subSeattleUpdated : Subscription :=
  { subSeattle with lastObservationId := some "A",
                    lastNotifiedAt := some (some 5) }

/-- The sample subscription after committing on `effPastSnapshot` at time
7300000. -/
def subAfterCommit : Subscription :=
  { subSeattle with lastObservationId := some "P",
                    lastNotifiedAt := some (some 7300000) }

/-- The sample subscription after the spurious commit of the idempotence
counterexample (cursor on the future-dated sighting "A", notified at 1000). -/
def subAfterFutureCommit : Subscription :=
  { subSeattle with lastObservationId := some "A",
                    lastNotifiedAt := some (some 1000) }

/-! Theorems. -/

/-- C1: the dedup step (`observations.filter(...)` in `execute`) returns an
order-preserving subset of the feed snapshot, and whenever every observed-at
time parses and a set `lastNotifiedAt` parses, it keeps exactly the
observations the spec's DedupFilter keeps: it drops the one whose submission
id equals a set `cursor.lastObservationId` and, when `cursor.lastNotifiedAt`
is set, those observed at or before it; with `lastObservationId` unset no id
filtering occurs. -/
theorem dedup_newSightings_spec (sub : Subscription) (obs : List Observation)
    (hObs : ∀ o ∈ obs, (Observation.obsTime o).isSome = true)
    (hLast : sub.lastNotifiedAt ≠ some none) :
    (newSightings sub obs).Sublist obs ∧
    newSightings sub obs = obs.filter (specKeep sub) := by
  refine ⟨List.filter_sublist obs, List.filter_congr ?_⟩
  intro o ho
  obtain ⟨t, ht⟩ := Option.isSome_iff_exists.mp (hObs o ho)
  unfold keepObservation specKeep
  cases hL : sub.lastNotifiedAt with
  | none =>
    cases sub.lastObservationId with
    | none => simp
    | some id => simp [Bool.beq_eq_decide_eq]
  | some x =>
    cases x with
    | none => exact absurd hL hLast
    | some l =>
      cases sub.lastObservationId with
      | none => simp
      | some id => simp [Bool.beq_eq_decide_eq]

/-- Witness for C1 at a concrete snapshot and cursor. -/
theorem dedup_newSightings_spec_witness :
    (newSightings subSeattle [obsPastX, obsFutureA, obsFutureB]).Sublist
        [obsPastX, obsFutureA, obsFutureB] ∧
    newSightings subSeattle [obsPastX, obsFutureA, obsFutureB] =
      [obsPastX, obsFutureA, obsFutureB].filter (specKeep subSeattle) :=
  dedup_newSightings_spec subSeattle [obsPastX, obsFutureA, obsFutureB]
    (by decide) (by decide)

/-- C2 counterexample: the code throttles on `newSightings[0]` (the first
element in feed order), not on the earliest observed-at time of the batch,
and it skips the check entirely when the interval is not positive. With
`lastNotifiedAt = 0` and a 60-minute interval, a batch whose first sighting
is at +120min but whose earliest is at +30min is dispatched although the
spec's earliest-based gate says to suppress it; with interval 0, a sighting
5 minutes older than `lastNotifiedAt` is dispatched although its gap is
negative. -/
theorem throttle_earliest_counterexample :
    (shouldNotify envFull subThrottle [obsRecent, obsOlder] = true ∧
      specShouldNotify 60 (some 0) [obsRecent, obsOlder] = false) ∧
    (shouldNotify envZeroMin subThrottle [obsBackdated] = true ∧
      specShouldNotify 0 (some 0) [obsBackdated] = false) := by
  decide

/-- C2 amended: with `lastNotifiedAt` unset the throttle always notifies;
with `lastNotifiedAt` parsing to `l`, a positive interval, and a batch whose
first sighting's observed-at parses to `t`, it notifies iff the gap in
minutes from `l` to `t` (the first, not the earliest, sighting) is at least
the interval. -/
theorem throttle_gate_first_sighting :
    (∀ (env : NotifierEnv) (sub : Subscription) (batch : List Observation),
      sub.lastNotifiedAt = none → shouldNotify env sub batch = true) ∧
    (∀ (env : NotifierEnv) (sub : Subscription) (l t : Int)
        (first : Observation) (rest : List Observation),
      sub.lastNotifiedAt = some (some l) → first.obsTime = some t →
      0 < env.minimumNotificationMinutes →
      (shouldNotify env sub (first :: rest) = true ↔
        env.minimumNotificationMinutes * 60000 ≤ t - l)) := by
  constructor
  · intro env sub batch h
    unfold shouldNotify
    rw [h]
  · intro env sub l t first rest hL ht hmin
    unfold shouldNotify
    rw [hL]
    simp [hmin, ht]

/-- Witness for C2's amended theorem at concrete cursors and batches. -/
theorem throttle_gate_first_sighting_witness :
    shouldNotify envFull { subThrottle with lastNotifiedAt := none }
        [obsRecent] = true ∧
    (shouldNotify envFull subThrottle [obsRecent, obsOlder] = true ↔
      envFull.minimumNotificationMinutes * 60000 ≤ 7200000 - 0) :=
  ⟨throttle_gate_first_sighting.1 envFull _ [obsRecent] rfl,
    throttle_gate_first_sighting.2 envFull subThrottle 0 7200000 obsRecent
      [obsOlder] rfl rfl (by decide)⟩

/-- C3 counterexample: the backend feed client (`server/src/ebird.js`)
treats an HTTP 404 like any other unsuccessful response — it raises, rather
than returning an empty observation list. -/
theorem fetch_notFound_errors :
    fetchRecentObservations "key" notFoundResponse =
      Except.error "eBird API returned 404 Not Found: " ∧
    fetchRecentObservations "key" notFoundResponse ≠
      Except.ok ([] : List Observation) := by
  constructor
  · rfl
  · intro h
    rw [show fetchRecentObservations "key" notFoundResponse =
        Except.error "eBird API returned 404 Not Found: " from rfl] at h
    exact Except.noConfusion h

/-- C3 amended: with an API key configured, every unsuccessful feed
response — "not found" included — is surfaced to the caller as an error,
and a successful response yields the parsed observation list. -/
theorem fetch_error_surfaced (apiKey : String) (r : FeedResponse)
    (hkey : apiKey ≠ "") :
    (r.ok = false →
      ∃ msg, fetchRecentObservations apiKey r = Except.error msg) ∧
    (r.ok = true → fetchRecentObservations apiKey r = Except.ok r.json) := by
  unfold fetchRecentObservations
  rw [if_neg hkey]
  constructor
  · intro hok
    rw [hok]
    exact ⟨_, rfl⟩
  · intro hok
    rw [hok]
    rfl

/-- Witness for C3's amended theorem at the concrete 404 response. -/
theorem fetch_error_surfaced_witness :
    (notFoundResponse.ok = false →
      ∃ msg, fetchRecentObservations "key" notFoundResponse =
        Except.error msg) ∧
    (notFoundResponse.ok = true →
      fetchRecentObservations "key" notFoundResponse =
        Except.ok notFoundResponse.json) :=
  fetch_error_surfaced "key" notFoundResponse (by decide)

/-- C4: when the feed fetch throws, or the dispatch is attempted (Twilio
configured) and throws, the subscription's pipeline produces no cursor
write, so the store — hence `lastObservationId` and `lastNotifiedAt` — is
left unchanged and the next cycle re-evaluates the same batch from the same
cursor. -/
theorem failure_leaves_cursor_unchanged (env : NotifierEnv)
    (sub : Subscription) (eff : SubEffects) (now : Int)
    (db : List Subscription)
    (h : (∃ e, eff.fetch = Except.error e) ∨
      (smsEnabled env = true ∧ eff.dispatchOk = false)) :
    (processSubscription env sub eff now).cursorWrite = none ∧
    applyOutcome db sub.id (processSubscription env sub eff now) = db := by
  have hcw : (processSubscription env sub eff now).cursorWrite = none := by
    rcases h with ⟨e, he⟩ | ⟨hsms, hdisp⟩
    · unfold processSubscription
      rw [he]
    · unfold processSubscription
      rcases hf : eff.fetch with e | obs
      · rfl
      · cases obs with
        | nil => rfl
        | cons latest tail =>
          cases hskip : skipsLatest sub latest with
          | true => simp [hskip]
          | false =>
            rcases hns : newSightings sub (latest :: tail) with
              _ | ⟨primary, rest⟩
            · simp [hskip, hns]
            · cases hsn : shouldNotify env sub (primary :: rest) with
              | true => simp [hskip, hns, hsn, hsms, hdisp]
              | false => simp [hskip, hns, hsn]
  exact ⟨hcw, by unfold applyOutcome; rw [hcw]⟩

/-- Witness for C4: a dispatch failure with Twilio configured leaves the
one-row store untouched. -/
theorem failure_leaves_cursor_unchanged_witness :
    (processSubscription envFull subSeattle effDispatchFail 1000).cursorWrite =
      none ∧
    applyOutcome [subSeattle] subSeattle.id
      (processSubscription envFull subSeattle effDispatchFail 1000) =
      [subSeattle] :=
  failure_leaves_cursor_unchanged envFull subSeattle effDispatchFail 1000
    [subSeattle] (Or.inr ⟨rfl, rfl⟩)

/-- C5 counterexample: a snapshot holding two sightings whose observed-at
times lie after the commit wall-clock time. Cycle 1 commits, advancing the
cursor to the primary sighting "A" at time 1000; replaying the identical
snapshot, observation "B" (observed after the stored `lastNotifiedAt`)
survives the dedup filter, clears the throttle, and is dispatched again —
the second cycle is not a no-op. -/
theorem idempotence_counterexample :
    (processSubscription envFull subSeattle effSnapshot 1000).cursorWrite =
      some ("A", 1000) ∧
    newSightings subAfterFutureCommit [obsPastX, obsFutureA, obsFutureB] ≠
      [] ∧
    (processSubscription envFull subAfterFutureCommit effSnapshot
      2000).sent.isSome = true := by
  refine ⟨rfl, by decide, rfl⟩

/-- C5 amended: if a cycle commits and every observation in the snapshot has
a parseable observed-at time no later than the commit time `now`, then after
the cursor write the identical snapshot yields zero qualifying new sightings
and the next cycle sends nothing and writes nothing. -/
theorem committed_cycle_idempotent (env : NotifierEnv) (sub : Subscription)
    (eff eff2 : SubEffects) (now now2 : Int) (obs : List Observation)
    (oid : String)
    (_hfetch : eff.fetch = Except.ok obs)
    (_hcommit : (processSubscription env sub eff now).cursorWrite =
      some (oid, now))
    (htimes : ∀ o ∈ obs, timeAtMost now o = true)
    (hfetch2 : eff2.fetch = Except.ok obs) :
    ∀ sub2 ∈ updateSubscriptionLastObservation [sub] sub.id oid now,
      newSightings sub2 obs = [] ∧
      (processSubscription env sub2 eff2 now2).sent = none ∧
      (processSubscription env sub2 eff2 now2).cursorWrite = none := by
  intro sub2 hmem
  have hsub2 : sub2 = { sub with lastObservationId := some oid,
                                 lastNotifiedAt := some (some now) } := by
    simpa [updateSubscriptionLastObservation] using hmem
  subst hsub2
  have hnil : newSightings
      { sub with lastObservationId := some oid,
                 lastNotifiedAt := some (some now) } obs = [] := by
    rw [newSightings, List.filter_eq_nil_iff]
    intro o ho
    have hle := htimes o ho
    unfold timeAtMost at hle
    rcases hot : o.obsTime with _ | t
    · rw [hot] at hle
      exact absurd hle (by simp)
    · rw [hot] at hle
      have htle : t ≤ now := by simpa using hle
      unfold keepObservation
      rw [hot]
      split
      · simp
      · simp
        omega
  have hout : processSubscription env
      { sub with lastObservationId := some oid,
                              lastNotifiedAt := some (some now) } eff2 now2 =
      ⟨none, none, false⟩ := by
    unfold processSubscription
    rw [hfetch2]
    cases hobs : obs with
    | nil => rfl
    | cons latest tail =>
      rw [hobs] at hnil
      cases hskip : skipsLatest
          { sub with lastObservationId := some oid,
                     lastNotifiedAt := some (some now) } latest with
      | true => simp [hskip]
      | false => simp [hskip, hnil]
  exact ⟨hnil, by rw [hout], by rw [hout]⟩

/-- Witness for C5's amended theorem: a committing run on two past-dated
sightings, replayed after the commit. -/
theorem committed_cycle_idempotent_witness :
    newSightings subAfterCommit [obsRecent, obsOlder] = [] ∧
    (processSubscription envFull subAfterCommit effPastSnapshot 9000000).sent =
      none ∧
    (processSubscription envFull subAfterCommit effPastSnapshot
      9000000).cursorWrite = none :=
  committed_cycle_idempotent envFull subSeattle effPastSnapshot effPastSnapshot
    7300000 9000000 [obsRecent, obsOlder] "P" rfl (by decide) (by decide) rfl
    subAfterCommit (by decide)

/-- C6: across every store mutation (`createSubscription`,
`deleteSubscription`, `updateSubscriptionLastObservation`), a row after the
operation is an untouched pre-existing row, a freshly inserted row with both
cursor columns NULL, or the row targeted by the cursor update with
`lastObservationId` and `lastNotifiedAt` written together — never one
without the other; and a commit's cursor write carries exactly the primary
sighting's submission id and the commit time `now`. -/
theorem commit_postcondition :
    (∀ (db : List Subscription) (op : StoreOp) (s2 : Subscription),
      s2 ∈ applyStoreOp db op →
      s2 ∈ db ∨
      (s2.lastObservationId = none ∧ s2.lastNotifiedAt = none) ∨
      (∃ id observationId notifiedAt s,
        op = StoreOp.updateCursor id observationId notifiedAt ∧
        s ∈ db ∧ s.id = id ∧
        s2 = { s with lastObservationId := some observationId,
                      lastNotifiedAt := some (some notifiedAt) })) ∧
    (∀ (env : NotifierEnv) (sub : Subscription) (eff : SubEffects)
        (now : Int) (obs : List Observation) (oid : String) (t : Int),
      eff.fetch = Except.ok obs →
      (processSubscription env sub eff now).cursorWrite = some (oid, t) →
      t = now ∧ ∃ primary rest, newSightings sub obs = primary :: rest ∧
        oid = primary.subId) := by
  constructor
  · intro db op s2 hmem
    cases op with
    | create input =>
      rcases List.mem_append.mp hmem with hold | hnew
      · exact Or.inl hold
      · refine Or.inr (Or.inl ?_)
        have : s2 =
            { input with lastObservationId := none,
                         lastNotifiedAt := none } := by simpa using hnew
        rw [this]
        exact ⟨rfl, rfl⟩
    | delete id => exact Or.inl (List.mem_of_mem_filter hmem)
    | updateCursor id observationId notifiedAt =>
      rcases List.mem_map.mp hmem with ⟨s, hs, hfs⟩
      by_cases hid : s.id = id
      · refine Or.inr (Or.inr ⟨id, observationId, notifiedAt, s, rfl, hs,
          hid, ?_⟩)
        rw [← hfs, if_pos hid]
      · refine Or.inl ?_
        rw [← hfs, if_neg hid]
        exact hs
  · intro env sub eff now obs oid t hfetch hcw
    cases obs with
    | nil => simp [processSubscription, hfetch] at hcw
    | cons latest tail =>
      cases hskip : skipsLatest sub latest with
      | true => simp [processSubscription, hfetch, hskip] at hcw
      | false =>
        rcases hns : newSightings sub (latest :: tail) with _ | ⟨primary, rest⟩
        · simp [processSubscription, hfetch, hskip, hns] at hcw
        · cases hsn : shouldNotify env sub (primary :: rest) with
          | false => simp [processSubscription, hfetch, hskip, hns, hsn] at hcw
          | true =>
            cases hsms : smsEnabled env with
            | true =>
              cases hdisp : eff.dispatchOk with
              | false =>
                simp [processSubscription, hfetch, hskip, hns, hsn, hsms,
                  hdisp] at hcw
              | true =>
                cases hst : eff.storeOk with
                | false =>
                  simp [processSubscription, hfetch, hskip, hns, hsn, hsms,
                    hdisp, hst] at hcw
                | true =>
                  simp [processSubscription, hfetch, hskip, hns, hsn, hsms,
                    hdisp, hst] at hcw
                  exact ⟨hcw.2.symm, primary, rest, rfl, hcw.1.symm⟩
            | false =>
              cases hst : eff.storeOk with
              | false =>
                simp [processSubscription, hfetch, hskip, hns, hsn,
                  hsms, hst] at hcw
              | true =>
                simp [processSubscription, hfetch, hskip, hns, hsn,
                  hsms, hst] at hcw
                exact ⟨hcw.2.symm, primary, rest, rfl, hcw.1.symm⟩

/-- Witness for C6 at a concrete cursor update and a concrete commit. -/
theorem commit_postcondition_witness :
    (subSeattleUpdated ∈ [subSeattle] ∨
      (subSeattleUpdated.lastObservationId = none ∧
        subSeattleUpdated.lastNotifiedAt = none) ∨
      (∃ id observationId notifiedAt s,
        StoreOp.updateCursor 1 "A" 5 =
          StoreOp.updateCursor id observationId notifiedAt ∧
        s ∈ [subSeattle] ∧ s.id = id ∧
        subSeattleUpdated =
          { s with lastObservationId := some observationId,
                   lastNotifiedAt := some (some notifiedAt) })) ∧
    ((7300000 : Int) = 7300000 ∧
      ∃ primary rest,
        newSightings subSeattle [obsRecent, obsOlder] = primary :: rest ∧
        "P" = primary.subId) :=
  ⟨commit_postcondition.1 [subSeattle] (StoreOp.updateCursor 1 "A" 5)
      subSeattleUpdated (by decide),
    commit_postcondition.2 envFull subSeattle effPastSnapshot 7300000
      [obsRecent, obsOlder] "P" 7300000 rfl (by decide)⟩

/-- C7: a cursor update addressed to an id with no matching row succeeds and
changes nothing — zero rows affected, no error, no resurrected
subscription. -/
theorem updateCursor_absent_id_noop (db : List Subscription) (id : Nat)
    (observationId : String) (notifiedAt : Int)
    (habsent : ∀ s ∈ db, s.id ≠ id) :
    updateSubscriptionLastObservation db id observationId notifiedAt = db := by
  unfold updateSubscriptionLastObservation
  induction db with
  | nil => rfl
  | cons s rest ih =>
    simp only [List.map_cons]
    rw [if_neg (habsent s (by simp))]
    rw [ih (fun x hx => habsent x (List.mem_cons_of_mem s hx))]

/-- Witness for C7: updating an id absent from a one-row store is the
identity. -/
theorem updateCursor_absent_id_noop_witness :
    updateSubscriptionLastObservation [subSeattle] 99 "Z" 7 = [subSeattle] :=
  updateCursor_absent_id_noop [subSeattle] 99 "Z" 7 (by decide)

/-- C8: subscription `j`'s outcome in a cycle depends only on its own
subscription row and its own effect results — replacing every other
subscription's effects (injecting fetch, dispatch, or store failures
anywhere else) leaves it unchanged; the cycle yields an outcome for every
subscription processed (length `min`), and subscription `j` is processed to
completion by its own pipeline with no error escaping the cycle. -/
theorem cycle_isolation (env : NotifierEnv) (subs : List Subscription)
    (effs effs2 : List SubEffects) (now : Int) (j : Nat)
    (sub : Subscription) (eff : SubEffects)
    (hsame : effs[j]? = effs2[j]?)
    (hj : subs[j]? = some sub) (hej : effs[j]? = some eff) :
    (executeCycle env subs effs now)[j]? =
      (executeCycle env subs effs2 now)[j]? ∧
    (executeCycle env subs effs now).length = min subs.length effs.length ∧
    (executeCycle env subs effs now)[j]? =
      some (processSubscription env sub eff now) := by
  refine ⟨?_, List.length_zipWith _ subs effs, ?_⟩
  · unfold executeCycle
    rw [List.getElem?_zipWith', List.getElem?_zipWith', hsame]
  · unfold executeCycle
    rw [List.getElem?_zipWith', hj, hej]
    rfl

/-- Witness for C8: subscription 1's outcome is the same whether
subscription 0's fetch failed or succeeded. -/
theorem cycle_isolation_witness :
    (executeCycle envFull [subSeattle, subThrottle]
        [effFetchFail, effPastSnapshot] 1000)[1]? =
      (executeCycle envFull [subSeattle, subThrottle]
        [effPastSnapshot, effPastSnapshot] 1000)[1]? ∧
    (executeCycle envFull [subSeattle, subThrottle]
        [effFetchFail, effPastSnapshot] 1000).length =
      min 2 2 ∧
    (executeCycle envFull [subSeattle, subThrottle]
        [effFetchFail, effPastSnapshot] 1000)[1]? =
      some (processSubscription envFull subThrottle effPastSnapshot 1000) :=
  cycle_isolation envFull [subSeattle, subThrottle]
    [effFetchFail, effPastSnapshot] [effPastSnapshot, effPastSnapshot] 1000 1
    subThrottle effPastSnapshot rfl rfl rfl

/-- C9: with the alert transport unconfigured (`twilioClient` null or no
from-number), a batch that passes the early-skip, the dedup filter, and the
throttle sends no message yet still writes the cursor: `lastObservationId`
becomes the primary sighting's submission id and `lastNotifiedAt` the fresh
time `now` — the sightings are marked notified with no alert dispatched. -/
theorem sms_disabled_advances_cursor (env : NotifierEnv) (sub : Subscription)
    (eff : SubEffects) (now : Int) (obs : List Observation)
    (latest : Observation) (tail : List Observation)
    (primary : Observation) (rest : List Observation)
    (hsms : smsEnabled env = false)
    (hfetch : eff.fetch = Except.ok obs)
    (hobs : obs = latest :: tail)
    (hskip : skipsLatest sub latest = false)
    (hnew : newSightings sub obs = primary :: rest)
    (hthr : shouldNotify env sub (primary :: rest) = true)
    (hstore : eff.storeOk = true) :
    (processSubscription env sub eff now).sent = none ∧
    (processSubscription env sub eff now).cursorWrite =
      some (primary.subId, now) := by
  subst hobs
  unfold processSubscription
  rw [hfetch]
  simp [hskip, hnew, hthr, hsms, hstore]

/-- Witness for C9: missing Twilio credentials, qualifying batch, cursor
advanced to ("P", 500) with nothing sent. -/
theorem sms_disabled_advances_cursor_witness :
    (processSubscription envNoSms subThrottle effPastSnapshot 500).sent =
      none ∧
    (processSubscription envNoSms subThrottle effPastSnapshot
      500).cursorWrite = some (obsRecent.subId, 500) :=
  sms_disabled_advances_cursor envNoSms subThrottle effPastSnapshot 500
    [obsRecent, obsOlder] obsRecent [obsOlder] obsRecent [obsOlder]
    rfl rfl rfl (by decide) (by decide) (by decide) rfl

/-- C10: the throttle check is skipped entirely — every batch is waved
through to dispatch — when `minimumNotificationMinutes` is zero or negative,
or when the stored `lastNotifiedAt` does not parse to a finite timestamp. -/
theorem throttle_skipped_edge_cases (env : NotifierEnv) (sub : Subscription)
    (h : env.minimumNotificationMinutes ≤ 0 ∨
      sub.lastNotifiedAt = some none) :
    ∀ batch, shouldNotify env sub batch = true := by
  intro batch
  unfold shouldNotify
  rcases h with hmin | hnan
  · have hng : ¬ (env.minimumNotificationMinutes > 0) := by omega
    cases sub.lastNotifiedAt with
    | none => rfl
    | some x => simp [hng]
  · rw [hnan]
    by_cases hm : env.minimumNotificationMinutes > 0 <;> simp [hm]

/-- Witness for C10: an unparseable `lastNotifiedAt` with a 60-minute
interval still notifies for a sighting observed 5 minutes earlier. -/
theorem throttle_skipped_edge_cases_witness :
    shouldNotify envFull subBadDate [obsBackdated] = true :=
  throttle_skipped_edge_cases envFull subBadDate (Or.inr rfl) [obsBackdated]

end BirdTrail
